import Mathlib

set_option maxHeartbeats 1000000

/-!
Verification development for the auto-CRUD system: a shallow embedding of
auto_crud.py (model/schema discovery, schema synthesis, CRUD route handlers,
integrity-error translation) together with theorems about the embedded
definitions.
-/

namespace AutoCrud

/-! ### Python values and row serialization -/

/-- A Python runtime value as it can appear in a model row.  vFloat, vUuid and
vDatetime carry their textual renderings (str(value) resp. isoformat()),
since the embedding never computes with them. -/
inductive Value where
  | vNone : Value
  | vStr (s : String) : Value
  | vInt (n : Int) : Value
  | vBool (b : Bool) : Value
  | vFloat (render : String) : Value
  | vUuid (render : String) : Value
  | vDatetime (iso : String) : Value
  deriving DecidableEq, Repr

/-- Python hasattr (value, "hex"): true for uuid.UUID objects AND for float
objects (float.hex is a method of every Python float).  None, str, int and
bool have no hex attribute. -/
def hasHexAttr : Value → Bool
  | Value.vUuid _ => true
  | Value.vFloat _ => true
  | _ => false

/-- Python hasattr (value, "isoformat"): true exactly for datetime objects. -/
def hasIsoformatAttr : Value → Bool
  | Value.vDatetime _ => true
  | _ => false

/-- Python str (value), only relevant after a hasattr test selected the value. -/
def pyStr : Value → String
  | Value.vNone => "None"
  | Value.vStr s => s
  | Value.vInt n => toString n
  | Value.vBool b => if b then "True" else "False"
  | Value.vFloat r => r
  | Value.vUuid r => r
  | Value.vDatetime iso => iso

/-- value.isoformat() for a datetime; unreachable placeholder otherwise. -/
def isoformatOf : Value → String
  | Value.vDatetime iso => iso
  | _ => ""

/-- One branch of AutoCRUD._serialize_db_item: the per-value conversion.
Mirrors the if/elif chain: hasattr hex, then hasattr isoformat (a datetime
object is always truthy, so the inner conditional takes the isoformat arm),
then the None branch, then pass-through. -/
def serializeValue (v : Value) : Value :=
  if hasHexAttr v then Value.vStr (pyStr v)
  else if hasIsoformatAttr v then Value.vStr (isoformatOf v)
  else if v = Value.vNone then Value.vNone
  else v

/-- A model instance (ORM row object): attribute name to value. -/
abbrev Row : Type := List (String × Value)

/-- Python getattr (db_item, name): attribute lookup on a row object. -/
def getattr (item : Row) (name : String) : Value :=
  (List.lookup name item).getD Value.vNone

/-- Python setattr (db_item, name, value): replace the attribute in place
(or add it when absent). -/
def setattr (item : Row) (name : String) (v : Value) : Row :=
  match item with
  | [] => [(name, v)]
  | (k, w) :: rest =>
    if k == name then (name, v) :: rest else (k, w) :: setattr rest name v

/-! ### Columns, the type mapping, and field specifications -/

/-- The Python types that the fixed column-type mapping can produce. -/
inductive PyType where
  | pyStr : PyType
  | pyInt : PyType
  | pyFloat : PyType
  | pyBool : PyType
  | pyDatetime : PyType
  deriving DecidableEq, Repr

/-- Substring containment on character lists. -/
def charsContain (hay needle : List Char) : Bool :=
  needle.isPrefixOf hay ||
    match hay with
    | [] => false
    | _ :: rest => charsContain rest needle

/-- Python substring containment: needle in hay. -/
def strContains (hay needle : String) : Bool :=
  charsContain hay.toList needle.toList

/-- Python str.lower, computed characterwise. -/
def strLower (s : String) : String :=
  String.mk (s.toList.map Char.toLower)

/-- Python str.upper, computed characterwise. -/
def strUpper (s : String) : String :=
  String.mk (s.toList.map Char.toUpper)

/-- The fixed ordered type_mapping table of _sqlalchemy_to_python_type. -/
def typeMapping : List (String × PyType) :=
  [("VARCHAR", PyType.pyStr), ("TEXT", PyType.pyStr), ("STRING", PyType.pyStr),
   ("INTEGER", PyType.pyInt), ("BIGINT", PyType.pyInt),
   ("FLOAT", PyType.pyFloat), ("REAL", PyType.pyFloat),
   ("BOOLEAN", PyType.pyBool), ("DATETIME", PyType.pyDatetime),
   ("UUID", PyType.pyStr)]

/-- AutoCRUD._sqlalchemy_to_python_type: first entry of the table whose name
occurs in the uppercased rendered column type wins; default str. -/
def sqlalchemyToPythonType (columnType : String) : PyType :=
  match typeMapping.find? (fun p => strContains (strUpper columnType) p.1) with
  | some p => p.2
  | none => PyType.pyStr

/-- A SQLAlchemy column as _auto_generate_schemas inspects it: name, rendered
type, nullability, primary-key flag, client-side default and server-side
default (none when absent, mirroring the Python None tests). -/
structure ColumnSpec where
  name : String
  typeName : String
  nullable : Bool
  primary_key : Bool
  default : Option Value
  server_default : Option Value
  deriving DecidableEq, Repr

/-- The default slot of a generated Pydantic field: required = the Python
ellipsis, value v = an explicit default (value none = the Python None). -/
inductive FieldDefault where
  | required : FieldDefault
  | value (v : Option Value) : FieldDefault
  deriving DecidableEq, Repr

/-- One generated Pydantic field: whether the annotation is wrapped in
Optional, the mapped Python type, and the default slot. -/
structure FieldSpec where
  optional : Bool
  pyType : PyType
  dflt : FieldDefault
  deriving DecidableEq, Repr

/-- AutoCRUD._is_auto_field. -/
def is_auto_field (c : ColumnSpec) : Bool :=
  c.primary_key || c.default.isSome || c.server_default.isSome ||
    strContains (strLower c.name) "created_at" ||
    strContains (strLower c.name) "updated_at"

/-- The response-schema field of a column in _auto_generate_schemas. -/
def responseFieldOf (c : ColumnSpec) : FieldSpec :=
  if c.primary_key then ⟨false, PyType.pyStr, FieldDefault.required⟩
  else if c.nullable then
    ⟨true, sqlalchemyToPythonType c.typeName, FieldDefault.value none⟩
  else ⟨false, sqlalchemyToPythonType c.typeName, FieldDefault.required⟩

/-- The create-schema field of a column (only used for non-primary-key,
non-auto columns). -/
def createFieldOf (c : ColumnSpec) : FieldSpec :=
  if c.nullable || c.default.isSome then
    ⟨true, sqlalchemyToPythonType c.typeName, FieldDefault.value c.default⟩
  else ⟨false, sqlalchemyToPythonType c.typeName, FieldDefault.required⟩

/-- The update-schema field of a column (only used for non-primary-key
columns): always Optional with default None. -/
def updateFieldOf (c : ColumnSpec) : FieldSpec :=
  ⟨true, sqlalchemyToPythonType c.typeName, FieldDefault.value none⟩

/-- The three field dictionaries built by the column loop of
_auto_generate_schemas, rendered as association lists in iteration order
(the Python dicts are keyed by column name, which is unique per table). -/
structure GeneratedFields where
  response : List (String × FieldSpec)
  create : List (String × FieldSpec)
  update : List (String × FieldSpec)
  deriving DecidableEq, Repr

/-- The column loop of _auto_generate_schemas: every column contributes a
response field; non-primary-key non-auto columns contribute a create field;
non-primary-key columns contribute an update field. -/
def autoGenerateFields (cols : List ColumnSpec) : GeneratedFields where
  response := cols.map (fun c => (c.name, responseFieldOf c))
  create := (cols.filter (fun c => !c.primary_key && !is_auto_field c)).map
    (fun c => (c.name, createFieldOf c))
  update := (cols.filter (fun c => !c.primary_key)).map
    (fun c => (c.name, updateFieldOf c))

/-! ### Schema classes, synthesis, and the matcher -/

/-- A Pydantic schema class as the matcher sees it: either a hand-written
class discovered from the schemas folder (with its class name and declared
field names), or a class built at runtime by create_model during synthesis
(with its generated name and field specifications). -/
inductive SchemaClass where
  | discovered (className : String) (fieldNames : List String) : SchemaClass
  | synthesized (className : String) (fields : List (String × FieldSpec)) : SchemaClass
  deriving DecidableEq, Repr

/-- True exactly for classes produced by synthesis (create_model). -/
def isSynthesizedClass : SchemaClass → Bool
  | SchemaClass.synthesized _ _ => true
  | SchemaClass.discovered _ _ => false

/-- The per-key role dictionary built by _discover_schemas_from_folder: at
most one schema class per role (the Python dict has one slot per key). -/
structure SchemaSet where
  create : Option SchemaClass := none
  update : Option SchemaClass := none
  response : Option SchemaClass := none
  base : Option SchemaClass := none
  deriving DecidableEq, Repr

/-- A discovered SQLAlchemy model class, reduced to what synthesis and the
route handlers consume: its table columns. -/
structure ModelClass where
  columns : List ColumnSpec
  deriving DecidableEq, Repr

/-- Python str.capitalize: first character uppercased, the rest lowercased. -/
def pyCapitalize (s : String) : String :=
  match s.toList with
  | [] => ""
  | c :: rest => String.mk (c.toUpper :: rest.map Char.toLower)

/-- AutoCRUD._auto_generate_schemas: build the three Pydantic models from the
generated field dictionaries and return the role dictionary holding exactly
the roles response, create and update. -/
def autoGenerateSchemas (modelName : String) (dbModel : ModelClass) : SchemaSet :=
  let g := autoGenerateFields dbModel.columns
  { response := some (SchemaClass.synthesized (pyCapitalize modelName ++ "Response") g.response)
    create := some (SchemaClass.synthesized (pyCapitalize modelName ++ "Create") g.create)
    update := some (SchemaClass.synthesized (pyCapitalize modelName ++ "Update") g.update)
    base := none }

/-- The required-roles test of _match_models_with_schemas: create, update and
response must all be present. -/
def hasRequiredSchemas (s : SchemaSet) : Bool :=
  s.create.isSome && s.update.isSome && s.response.isSome

/-- AutoCRUD._match_models_with_schemas: for every discovered model key, pair
the discovered schema set when it exists and carries all three required
roles; otherwise synthesize a full replacement set. -/
def matchModelsWithSchemas (models : List (String × ModelClass))
    (schemas : List (String × SchemaSet)) : List (String × ModelClass × SchemaSet) :=
  models.map (fun km =>
    match List.lookup km.1 schemas with
    | some schemaInfo =>
      if hasRequiredSchemas schemaInfo then (km.1, km.2, schemaInfo)
      else (km.1, km.2, autoGenerateSchemas km.1 km.2)
    | none => (km.1, km.2, autoGenerateSchemas km.1 km.2))

/-! ### Model discovery from a folder (per file) -/

/-- A class object found by inspect.getmembers while scanning a model file:
its Python name, whether it has a tablename attribute (and which), and
whether it is an instance of DeclarativeMeta. -/
structure PyClassDef where
  name : String
  has_tablename : Bool
  tablename : String
  is_declarative_meta : Bool
  deriving DecidableEq, Repr

/-- The member test of _discover_models_from_folder. -/
def isTableMapped (c : PyClassDef) : Bool :=
  c.has_tablename && c.is_declarative_meta

/-- The value stored in self.models for a matching class. -/
structure ModelEntry where
  db_model : PyClassDef
  table_name : String
  class_name : String
  deriving DecidableEq, Repr

/-- One scanned model file: its stem and its class members in the order
inspect.getmembers enumerates them. -/
structure SourceFile where
  stem : String
  members : List PyClassDef

/-- Python dict assignment d[k] = v on an association list: replace the
binding when the key is present, append it otherwise. -/
def dictSet (d : List (String × ModelEntry)) (k : String) (v : ModelEntry) :
    List (String × ModelEntry) :=
  match d with
  | [] => [(k, v)]
  | (k2, v2) :: rest =>
    if k2 == k then (k, v) :: rest else (k2, v2) :: dictSet rest k v

/-- The models-dict entry built for a matching class. -/
def entryOf (c : PyClassDef) : ModelEntry :=
  ⟨c, c.tablename, c.name⟩

/-- The member loop of _discover_models_from_folder for one file: every
table-mapped class overwrites self.models under the key equal to the
lowercased file stem. -/
def discoverModelsInFile (models : List (String × ModelEntry)) (f : SourceFile) :
    List (String × ModelEntry) :=
  f.members.foldl
    (fun acc c => if isTableMapped c then dictSet acc (strLower f.stem) (entryOf c) else acc)
    models

/-! ### Integrity-error translation -/

/-- AutoCRUD._handle_integrity_error: substring tests on the textual message
of the database error, in source order, mapped to (status, detail). -/
def handleIntegrityError (errorMsg : String) (modelName : String) : Nat × String :=
  if strContains errorMsg "duplicate key value violates unique constraint" then
    if strContains errorMsg "_email_key" then
      (409, "Email already exists. Please use a different email address.")
    else if strContains errorMsg "_username_key" then
      (409, "Username already exists. Please choose a different username.")
    else if strContains errorMsg "_employee_id_key" then
      (409, "Employee ID already exists. Please use a different employee ID.")
    else
      (409, "A " ++ modelName ++ " with this information already exists. Please check your input.")
  else if strContains errorMsg "violates not-null constraint" then
    (400, "Missing required field. Please provide all required information.")
  else if strContains errorMsg "violates foreign key constraint" then
    (400, "Referenced record does not exist. Please check your input.")
  else
    (400, "Database error: Unable to process request. Please check your input.")

/-! ### Generated route handlers -/

/-- AutoCRUD._serialize_db_item: one output entry per table column, each the
converted attribute value. -/
def serializeDbItem (m : ModelClass) (item : Row) : Row :=
  m.columns.map (fun c => (c.name, serializeValue (getattr item c.name)))

/-- db.query (model).filter (model.id == item_id).first(): the first stored
row whose attribute literally named id equals the path parameter.  The
handlers compare the attribute named id, not the declared primary key. -/
def queryFilterById (db : List Row) (item_id : Value) : Option Row :=
  db.find? (fun r => getattr r "id" == item_id)

/-- The declared primary-key column name of a model (first primary-key
column), used only to compare against what the handlers actually do. -/
def primaryKeyColumnName (m : ModelClass) : Option String :=
  (m.columns.find? (fun c => c.primary_key)).map (fun c => c.name)

/-- Fetch by the declared primary-key column, the behaviour the spec
describes as fetch by primary key. -/
def queryFilterByPrimaryKey (m : ModelClass) (db : List Row) (v : Value) : Option Row :=
  match primaryKeyColumnName m with
  | some pk => db.find? (fun r => getattr r pk == v)
  | none => none

/-- Modelled from the spec: the web framework validates the declared query
constraints of read_items (skip defaults to 0 with ge=0; limit defaults to
100 with ge=1 and le=1000) and rejects a violation with status 400 (the
framework-side rejection mapping is not part of this repository; the spec
states 400 if skip is negative or limit outside the range 1..1000).  On
success the handler body runs: offset, limit, and per-row serialization. -/
def read_items (m : ModelClass) (db : List Row) (skip limit : Option Int) :
    Except Nat (List Row) :=
  let s := skip.getD 0
  let l := limit.getD 100
  if s < 0 || l < 1 || l > 1000 then Except.error 400
  else Except.ok (((db.drop s.toNat).take l.toNat).map (serializeDbItem m))

/-- The generated GET by-id handler read_item. -/
def read_item (m : ModelClass) (modelName : String) (db : List Row) (item_id : Value) :
    Except (Nat × String) Row :=
  match queryFilterById db item_id with
  | none => Except.error (404, pyCapitalize modelName ++ " not found")
  | some item => Except.ok (serializeDbItem m item)

/-- The setattr loop of update_item over item_update.dict (exclude_unset =
True): only the explicitly provided fields are written onto the row. -/
def applyUpdateData (dbItem : Row) (updateData : List (String × Value)) : Row :=
  updateData.foldl (fun r fv => setattr r fv.1 fv.2) dbItem

/-- Replace the first row satisfying the predicate (the fetched ORM object is
mutated in place and committed). -/
def replaceFirst (db : List Row) (p : Row → Bool) (newRow : Row) : List Row :=
  match db with
  | [] => []
  | r :: rest => if p r then newRow :: rest else r :: replaceFirst rest p newRow

/-- The generated PUT handler update_item: fetch by the id attribute, 404 when
absent, otherwise apply the explicitly provided fields, persist, and return
the serialized row.  The result pairs the response with the stored state. -/
def update_item (m : ModelClass) (modelName : String) (db : List Row) (item_id : Value)
    (updateData : List (String × Value)) : Except (Nat × String) Row × List Row :=
  match queryFilterById db item_id with
  | none => (Except.error (404, pyCapitalize modelName ++ " not found"), db)
  | some dbItem =>
    let updated := applyUpdateData dbItem updateData
    (Except.ok (serializeDbItem m updated),
     replaceFirst db (fun r => getattr r "id" == item_id) updated)

/-- Remove the first row satisfying the predicate (db.delete + commit). -/
def removeFirst (db : List Row) (p : Row → Bool) : List Row :=
  match db with
  | [] => []
  | r :: rest => if p r then rest else r :: removeFirst rest p

/-- The generated DELETE handler delete_item: fetch by the id attribute, 404
when absent, otherwise remove the row and return the success message.  The
result pairs the response with the stored state. -/
def delete_item (modelName : String) (db : List Row) (item_id : Value) :
    Except (Nat × String) String × List Row :=
  match queryFilterById db item_id with
  | none => (Except.error (404, pyCapitalize modelName ++ " not found"), db)
  | some _ =>
    (Except.ok (pyCapitalize modelName ++ " deleted successfully"),
     removeFirst db (fun r => getattr r "id" == item_id))

/-! ### Demonstration data used by the witnesses -/

/-- The column set of the spec test vector: id primary key with default,
name required text, age nullable integer, created_at timestamp with
default. -/
def demoCols : List ColumnSpec :=
  [⟨"id", "UUID", false, true, some (Value.vStr "uuid4"), none⟩,
   ⟨"name", "VARCHAR(100)", false, false, none, none⟩,
   ⟨"age", "INTEGER", true, false, none, none⟩,
   ⟨"created_at", "DATETIME", true, false, some (Value.vDatetime "utcnow"), none⟩]

/-- The demonstration model built from the demo columns. -/
def demoModel : ModelClass := ⟨demoCols⟩

/-- A one-row demonstration store. -/
def demoDb : List Row := [[("id", Value.vStr "1"), ("name", Value.vStr "a"),
  ("age", Value.vInt 3), ("created_at", Value.vDatetime "2024-01-01T00:00:00")]]

/-! ### Theorems for the claims -/

/-- Claim C4 (code bug evidence): row serialization evaluated per value.
Integer, boolean, string and None values pass through unchanged and UUID and
datetime values become strings, but a float value is ALSO converted to its
string form, because the UUID duck test hasattr (value, "hex") is true for
every Python float; so a Float column such as Employee.salary does not keep
its original type, contradicting the stated pass-through for floats. -/
theorem serializeValue_float_is_stringified :
    serializeValue (Value.vFloat "50000.5") = Value.vStr "50000.5"
    ∧ Value.vStr "50000.5" ≠ Value.vFloat "50000.5"
    ∧ serializeValue (Value.vInt 30) = Value.vInt 30
    ∧ serializeValue (Value.vBool true) = Value.vBool true
    ∧ serializeValue (Value.vStr "Alice") = Value.vStr "Alice"
    ∧ serializeValue (Value.vUuid "9f1b") = Value.vStr "9f1b"
    ∧ serializeValue (Value.vDatetime "2024-01-01T00:00:00")
        = Value.vStr "2024-01-01T00:00:00"
    ∧ serializeValue Value.vNone = Value.vNone := by
  decide

/-- Claim C5: list-endpoint pagination.  Omitted parameters default to skip 0
and limit 100; any request with negative skip or limit outside 1..1000 is
rejected with status 400; in-range parameters return the serialized page. -/
theorem read_items_pagination_bounds (m : ModelClass) (db : List Row) (s l : Int) :
    read_items m db none none = read_items m db (some 0) (some 100)
    ∧ (∀ l2 : Option Int, read_items m db none l2 = read_items m db (some 0) l2)
    ∧ (∀ s2 : Option Int, read_items m db s2 none = read_items m db s2 (some 100))
    ∧ (s < 0 ∨ l < 1 ∨ 1000 < l → read_items m db (some s) (some l) = Except.error 400)
    ∧ (0 ≤ s → 1 ≤ l → l ≤ 1000 →
        read_items m db (some s) (some l) =
          Except.ok (((db.drop s.toNat).take l.toNat).map (serializeDbItem m))) := by
  refine ⟨rfl, fun _ => rfl, fun _ => rfl, ?_, ?_⟩
  · intro h
    have hb : (decide (s < 0) || decide (l < 1) || decide (l > 1000)) = true := by
      rcases h with h | h | h <;> simp [h]
    simp [read_items, hb]
  · intro h1 h2 h3
    have hb : (decide (s < 0) || decide (l < 1) || decide (l > 1000)) = false := by
      simp only [Bool.or_eq_false_iff, decide_eq_false_iff_not]
      omega
    simp [read_items, hb]

/-- Witness for claim C5: limit 1001 and skip -1 are rejected with 400 while
limit 1000 succeeds with the serialized page, on the demonstration store. -/
theorem read_items_pagination_bounds_witness :
    read_items demoModel demoDb (some 0) (some 1001) = Except.error 400
    ∧ read_items demoModel demoDb (some (-1)) (some 100) = Except.error 400
    ∧ read_items demoModel demoDb (some 0) (some 1000) =
        Except.ok (((demoDb.drop (0 : Int).toNat).take (1000 : Int).toNat).map
          (serializeDbItem demoModel)) :=
  ⟨(read_items_pagination_bounds demoModel demoDb 0 1001).2.2.2.1
      (Or.inr (Or.inr (by decide))),
   (read_items_pagination_bounds demoModel demoDb (-1) 100).2.2.2.1
      (Or.inl (by decide)),
   (read_items_pagination_bounds demoModel demoDb 0 1000).2.2.2.2
      (by decide) (by decide) (by decide)⟩

/-- Claim C6: the integrity-error translator maps the textual message by
first matching substring in priority order: inside the duplicate-key branch
the email, username and employee-id constraint markers yield the specific
409 messages and any other duplicate yields the generic 409; outside it the
not-null marker yields 400 missing-required-field, the foreign-key marker
yields 400 referenced-record-does-not-exist, and anything else yields the
generic 400 database error. -/
theorem handleIntegrityError_priority (msg modelName : String) :
    (strContains msg "duplicate key value violates unique constraint" = true →
      strContains msg "_email_key" = true →
      handleIntegrityError msg modelName =
        (409, "Email already exists. Please use a different email address."))
    ∧ (strContains msg "duplicate key value violates unique constraint" = true →
      strContains msg "_email_key" = false →
      strContains msg "_username_key" = true →
      handleIntegrityError msg modelName =
        (409, "Username already exists. Please choose a different username."))
    ∧ (strContains msg "duplicate key value violates unique constraint" = true →
      strContains msg "_email_key" = false →
      strContains msg "_username_key" = false →
      strContains msg "_employee_id_key" = true →
      handleIntegrityError msg modelName =
        (409, "Employee ID already exists. Please use a different employee ID."))
    ∧ (strContains msg "duplicate key value violates unique constraint" = true →
      strContains msg "_email_key" = false →
      strContains msg "_username_key" = false →
      strContains msg "_employee_id_key" = false →
      handleIntegrityError msg modelName =
        (409, "A " ++ modelName ++ " with this information already exists. Please check your input."))
    ∧ (strContains msg "duplicate key value violates unique constraint" = false →
      strContains msg "violates not-null constraint" = true →
      handleIntegrityError msg modelName =
        (400, "Missing required field. Please provide all required information."))
    ∧ (strContains msg "duplicate key value violates unique constraint" = false →
      strContains msg "violates not-null constraint" = false →
      strContains msg "violates foreign key constraint" = true →
      handleIntegrityError msg modelName =
        (400, "Referenced record does not exist. Please check your input."))
    ∧ (strContains msg "duplicate key value violates unique constraint" = false →
      strContains msg "violates not-null constraint" = false →
      strContains msg "violates foreign key constraint" = false →
      handleIntegrityError msg modelName =
        (400, "Database error: Unable to process request. Please check your input.")) := by
  refine ⟨?_, ?_, ?_, ?_, ?_, ?_, ?_⟩ <;> (intros; simp [handleIntegrityError, *])

/-- A realistic duplicate-email integrity message as PostgreSQL phrases it. -/
def pgEmailMsg : String :=
  "duplicate key value violates unique constraint \"users_email_key\""

/-- Witness for claim C6: a second insert with a duplicate unique email
produces the email-specific 409 message. -/
theorem handleIntegrityError_priority_witness :
    strContains pgEmailMsg "duplicate key value violates unique constraint" = true
    ∧ strContains pgEmailMsg "_email_key" = true
    ∧ handleIntegrityError pgEmailMsg "user" =
        (409, "Email already exists. Please use a different email address.") :=
  ⟨by decide, by decide,
   (handleIntegrityError_priority pgEmailMsg "user").1 (by decide) (by decide)⟩

/-- Claim C8: when no stored row carries the requested id, the GET by-id,
PUT and DELETE handlers all answer 404 with the model-named message and the
stored state is unchanged; in particular deleting an already-deleted id is a
404, not a crash. -/
theorem handlers_404_on_missing_id (m : ModelClass) (modelName : String)
    (db : List Row) (item_id : Value) (updateData : List (String × Value))
    (h : queryFilterById db item_id = none) :
    read_item m modelName db item_id =
      Except.error (404, pyCapitalize modelName ++ " not found")
    ∧ update_item m modelName db item_id updateData =
      (Except.error (404, pyCapitalize modelName ++ " not found"), db)
    ∧ delete_item modelName db item_id =
      (Except.error (404, pyCapitalize modelName ++ " not found"), db) := by
  refine ⟨?_, ?_, ?_⟩ <;> simp [read_item, update_item, delete_item, h]

/-- Witness for claim C8: the first DELETE removes the demo row; the second
DELETE of the same id finds nothing and answers 404 with the store left
empty. -/
theorem handlers_404_on_missing_id_witness :
    (delete_item "user" demoDb (Value.vStr "1")).2 = []
    ∧ queryFilterById [] (Value.vStr "1") = none
    ∧ delete_item "user" [] (Value.vStr "1") =
        (Except.error (404, pyCapitalize "user" ++ " not found"), []) :=
  ⟨by decide, rfl,
   (handlers_404_on_missing_id demoModel "user" [] (Value.vStr "1") [] rfl).2.2⟩

/-- Attribute lookup is unaffected by a setattr on a different attribute. -/
theorem lookup_setattr_ne (r : Row) (k f : String) (v : Value) (h : f ≠ k) :
    List.lookup f (setattr r k v) = List.lookup f r := by
  induction r with
  | nil =>
    simp [setattr, List.lookup_cons, beq_eq_false_iff_ne.mpr h]
  | cons p rest ih =>
    obtain ⟨k2, w⟩ := p
    by_cases hk : (k2 == k) = true
    · have hk2 : k2 = k := beq_iff_eq.mp hk
      subst hk2
      simp [setattr, List.lookup_cons, beq_eq_false_iff_ne.mpr h]
    · simp only [setattr, hk, Bool.false_eq_true, if_false, List.lookup_cons]
      by_cases hfk2 : (f == k2) = true
      · simp [hfk2]
      · simp only [Bool.not_eq_true] at hfk2
        simp [hfk2, ih]

/-- Frame property of the setattr loop: an attribute whose name is not among
the provided update fields keeps its value. -/
theorem applyUpdateData_frame (upd : List (String × Value)) (row : Row) (f : String)
    (hf : f ∉ upd.map Prod.fst) :
    getattr (applyUpdateData row upd) f = getattr row f := by
  induction upd generalizing row with
  | nil => rfl
  | cons p rest ih =>
    have hf1 : f ≠ p.1 := by
      intro e
      exact hf (by simp [e])
    have hf2 : f ∉ rest.map Prod.fst := by
      intro e
      exact hf (by simp [List.mem_cons_of_mem, e])
    have hstep : applyUpdateData row (p :: rest) =
        applyUpdateData (setattr row p.1 p.2) rest := rfl
    rw [hstep, ih (setattr row p.1 p.2) hf2]
    unfold getattr
    rw [lookup_setattr_ne row p.1 f p.2 hf1]

/-- The serialized entry of a column depends only on the value of that
attribute in the row. -/
theorem lookup_serializeDbItem_congr (cols : List ColumnSpec) (r r2 : Row) (f : String)
    (h : getattr r f = getattr r2 f) :
    List.lookup f (cols.map (fun c => (c.name, serializeValue (getattr r c.name)))) =
    List.lookup f (cols.map (fun c => (c.name, serializeValue (getattr r2 c.name)))) := by
  induction cols with
  | nil => rfl
  | cons c rest ih =>
    simp only [List.map_cons, List.lookup_cons]
    by_cases hfc : (f == c.name) = true
    · have : f = c.name := beq_iff_eq.mp hfc
      subst this
      simp [hfc, h]
    · simp only [Bool.not_eq_true] at hfc
      simp [hfc, ih]

/-- Claim C7: the PUT handler writes exactly the explicitly provided fields
onto the fetched row; every other field keeps its prior value, both in the
persisted row and in the serialized response. -/
theorem update_item_partial_update (m : ModelClass) (modelName : String)
    (db : List Row) (item_id : Value) (upd : List (String × Value)) (dbItem : Row)
    (f : String) (hfind : queryFilterById db item_id = some dbItem)
    (hf : f ∉ upd.map Prod.fst) :
    (update_item m modelName db item_id upd).1 =
      Except.ok (serializeDbItem m (applyUpdateData dbItem upd))
    ∧ getattr (applyUpdateData dbItem upd) f = getattr dbItem f
    ∧ List.lookup f (serializeDbItem m (applyUpdateData dbItem upd)) =
      List.lookup f (serializeDbItem m dbItem) := by
  refine ⟨?_, applyUpdateData_frame upd dbItem f hf, ?_⟩
  · simp [update_item, hfind]
  · exact lookup_serializeDbItem_congr m.columns _ _ f
      (applyUpdateData_frame upd dbItem f hf)

/-- The single row of the demonstration store. -/
def demoRow : Row := [("id", Value.vStr "1"), ("name", Value.vStr "a"),
  ("age", Value.vInt 3), ("created_at", Value.vDatetime "2024-01-01T00:00:00")]

/-- Witness for claim C7: a PUT that sets only the name field leaves the age
field of the demo row at its prior value, in the row and in the response. -/
theorem update_item_partial_update_witness :
    queryFilterById demoDb (Value.vStr "1") = some demoRow
    ∧ "age" ∉ ([("name", Value.vStr "b")].map Prod.fst)
    ∧ getattr (applyUpdateData demoRow [("name", Value.vStr "b")]) "age"
        = getattr demoRow "age"
    ∧ List.lookup "age" (serializeDbItem demoModel
        (applyUpdateData demoRow [("name", Value.vStr "b")]))
      = List.lookup "age" (serializeDbItem demoModel demoRow) :=
  ⟨by decide, by decide,
   (update_item_partial_update demoModel "user" demoDb (Value.vStr "1")
      [("name", Value.vStr "b")] demoRow "age" (by decide) (by decide)).2.1,
   (update_item_partial_update demoModel "user" demoDb (Value.vStr "1")
      [("name", Value.vStr "b")] demoRow "age" (by decide) (by decide)).2.2⟩

/-- Claim C1: the synthesis policy of the generated schema set.  Every
column yields a response field (primary keys required string regardless of
type, nullable non-key columns optional with absent default, non-nullable
non-key columns required); the create fields are exactly the columns that
are neither primary keys nor auto-classified, optional with the declared
column default when nullable or defaulted and required otherwise; every
non-primary-key column yields an optional update field with no default and
primary keys are excluded from the update fields. -/
theorem autoGenerateFields_policy (cols : List ColumnSpec) (c : ColumnSpec)
    (hc : c ∈ cols) (hnd : (cols.map ColumnSpec.name).Nodup) :
    ((c.name,
        if c.primary_key then (⟨false, PyType.pyStr, FieldDefault.required⟩ : FieldSpec)
        else if c.nullable then
          ⟨true, sqlalchemyToPythonType c.typeName, FieldDefault.value none⟩
        else ⟨false, sqlalchemyToPythonType c.typeName, FieldDefault.required⟩)
      ∈ (autoGenerateFields cols).response)
    ∧ (c.primary_key = false → is_auto_field c = false →
        (c.name,
          if c.nullable || c.default.isSome then
            (⟨true, sqlalchemyToPythonType c.typeName, FieldDefault.value c.default⟩ : FieldSpec)
          else ⟨false, sqlalchemyToPythonType c.typeName, FieldDefault.required⟩)
        ∈ (autoGenerateFields cols).create)
    ∧ (c.primary_key = true ∨ is_auto_field c = true →
        c.name ∉ (autoGenerateFields cols).create.map Prod.fst)
    ∧ (c.primary_key = false →
        (c.name, (⟨true, sqlalchemyToPythonType c.typeName, FieldDefault.value none⟩ : FieldSpec))
        ∈ (autoGenerateFields cols).update)
    ∧ (c.primary_key = true → c.name ∉ (autoGenerateFields cols).update.map Prod.fst) := by
  refine ⟨?_, ?_, ?_, ?_, ?_⟩
  · exact List.mem_map.mpr ⟨c, hc, rfl⟩
  · intro h1 h2
    exact List.mem_map.mpr ⟨c, List.mem_filter.mpr ⟨hc, by simp [h1, h2]⟩, rfl⟩
  · intro hor hmem
    simp only [autoGenerateFields, List.map_map, List.mem_map,
      Function.comp_apply] at hmem
    obtain ⟨c2, hc2, hname⟩ := hmem
    rw [List.mem_filter] at hc2
    have heq : c2 = c := List.inj_on_of_nodup_map hnd hc2.1 hc hname
    subst heq
    rcases hor with h | h <;> simp [h] at hc2
  · intro h1
    exact List.mem_map.mpr ⟨c, List.mem_filter.mpr ⟨hc, by simp [h1]⟩, rfl⟩
  · intro h1 hmem
    simp only [autoGenerateFields, List.map_map, List.mem_map,
      Function.comp_apply] at hmem
    obtain ⟨c2, hc2, hname⟩ := hmem
    rw [List.mem_filter] at hc2
    have heq : c2 = c := List.inj_on_of_nodup_map hnd hc2.1 hc hname
    subst heq
    simp [h1] at hc2

/-- The nullable integer column of the demo column set. -/
def demoAge : ColumnSpec := ⟨"age", "INTEGER", true, false, none, none⟩

/-- The timestamp-named defaulted column of the demo column set. -/
def demoCreatedAt : ColumnSpec :=
  ⟨"created_at", "DATETIME", true, false, some (Value.vDatetime "utcnow"), none⟩

/-- The primary-key column of the demo column set. -/
def demoId : ColumnSpec := ⟨"id", "UUID", false, true, some (Value.vStr "uuid4"), none⟩

/-- Witness for claim C1 on the demo column set: age is an optional integer
in response, create and update; created_at is excluded from create; id is a
required string in response and excluded from update. -/
theorem autoGenerateFields_policy_witness :
    demoAge ∈ demoCols
    ∧ (demoCols.map ColumnSpec.name).Nodup
    ∧ ("age", (⟨true, PyType.pyInt, FieldDefault.value none⟩ : FieldSpec))
        ∈ (autoGenerateFields demoCols).response
    ∧ ("age", (⟨true, PyType.pyInt, FieldDefault.value none⟩ : FieldSpec))
        ∈ (autoGenerateFields demoCols).create
    ∧ "created_at" ∉ (autoGenerateFields demoCols).create.map Prod.fst
    ∧ ("id", (⟨false, PyType.pyStr, FieldDefault.required⟩ : FieldSpec))
        ∈ (autoGenerateFields demoCols).response
    ∧ "id" ∉ (autoGenerateFields demoCols).update.map Prod.fst :=
  ⟨by decide, by decide,
   (autoGenerateFields_policy demoCols demoAge (by decide) (by decide)).1,
   (autoGenerateFields_policy demoCols demoAge (by decide) (by decide)).2.1
     (by decide) (by decide),
   (autoGenerateFields_policy demoCols demoCreatedAt (by decide) (by decide)).2.2.1
     (Or.inr (by decide)),
   (autoGenerateFields_policy demoCols demoId (by decide) (by decide)).1,
   (autoGenerateFields_policy demoCols demoId (by decide) (by decide)).2.2.2.2
     (by decide)⟩

/-- Claim C2: for a discovered model key, the matcher pairs the discovered
schema set unchanged exactly when it exists and carries all three required
roles; otherwise (key absent, or any role missing) it installs the full
synthesized replacement set, whose every class is a synthesized class, so no
discovered schema class for that key appears in it. -/
theorem matchModels_pairs_or_replaces (models : List (String × ModelClass))
    (schemas : List (String × SchemaSet)) (key : String) (m : ModelClass)
    (hm : (key, m) ∈ models) :
    (∀ si, List.lookup key schemas = some si → hasRequiredSchemas si = true →
      (key, m, si) ∈ matchModelsWithSchemas models schemas)
    ∧ (List.lookup key schemas = none →
      (key, m, autoGenerateSchemas key m) ∈ matchModelsWithSchemas models schemas)
    ∧ (∀ si, List.lookup key schemas = some si → hasRequiredSchemas si = false →
      (key, m, autoGenerateSchemas key m) ∈ matchModelsWithSchemas models schemas)
    ∧ (∀ sc, ((autoGenerateSchemas key m).create = some sc
        ∨ (autoGenerateSchemas key m).update = some sc
        ∨ (autoGenerateSchemas key m).response = some sc) →
      isSynthesizedClass sc = true) := by
  refine ⟨?_, ?_, ?_, ?_⟩
  · intro si hsi hreq
    exact List.mem_map.mpr ⟨(key, m), hm, by simp [hsi, hreq]⟩
  · intro hnone
    exact List.mem_map.mpr ⟨(key, m), hm, by simp [hnone]⟩
  · intro si hsi hreq
    exact List.mem_map.mpr ⟨(key, m), hm, by simp [hsi, hreq]⟩
  · intro sc h
    rcases h with h | h | h <;>
      · simp only [autoGenerateSchemas, Option.some.injEq] at h
        exact h ▸ rfl

/-- A hand-written create schema carrying a sentinel field name. -/
def sentinelCreate : SchemaClass :=
  SchemaClass.discovered "UserCreate" ["name", "sentinel"]

/-- A discovered schema set carrying all three required roles. -/
def fullSchemaSet : SchemaSet :=
  { create := some sentinelCreate
    update := some (SchemaClass.discovered "UserUpdate" ["name"])
    response := some (SchemaClass.discovered "UserResponse" ["id", "name"])
    base := none }

/-- A discovered schema set missing the update and response roles. -/
def partialSchemaSet : SchemaSet :=
  { create := some (SchemaClass.discovered "EmployeeCreate" ["sentinel"])
    update := none
    response := none
    base := none }

/-- Witness for claim C2: a model whose discovered set has all three roles is
paired with that set unchanged, and a model whose discovered set misses a
role receives the synthesized replacement set. -/
theorem matchModels_pairs_or_replaces_witness :
    List.lookup "user" [("user", fullSchemaSet)] = some fullSchemaSet
    ∧ hasRequiredSchemas fullSchemaSet = true
    ∧ ("user", demoModel, fullSchemaSet) ∈
        matchModelsWithSchemas [("user", demoModel)] [("user", fullSchemaSet)]
    ∧ hasRequiredSchemas partialSchemaSet = false
    ∧ ("employee", demoModel, autoGenerateSchemas "employee" demoModel) ∈
        matchModelsWithSchemas [("employee", demoModel)] [("employee", partialSchemaSet)] :=
  ⟨by decide, by decide,
   (matchModels_pairs_or_replaces [("user", demoModel)] [("user", fullSchemaSet)]
      "user" demoModel (by decide)).1 fullSchemaSet (by decide) (by decide),
   by decide,
   (matchModels_pairs_or_replaces [("employee", demoModel)]
      [("employee", partialSchemaSet)] "employee" demoModel (by decide)).2.2.1
      partialSchemaSet (by decide) (by decide)⟩

/-- Claim C9: when route generation runs, every matched model entry carries a
schema in each of the three roles create, update and response (one per role
by construction of the role dictionary), whether discovered or
synthesized. -/
theorem matchModels_entries_have_all_roles (models : List (String × ModelClass))
    (schemas : List (String × SchemaSet)) (e : String × ModelClass × SchemaSet)
    (he : e ∈ matchModelsWithSchemas models schemas) :
    e.2.2.create.isSome = true ∧ e.2.2.update.isSome = true
      ∧ e.2.2.response.isSome = true := by
  obtain ⟨km, hkm, hfe⟩ := List.mem_map.mp he
  cases hl : List.lookup km.1 schemas with
  | none =>
    rw [← hfe]
    simp [hl, autoGenerateSchemas]
  | some si =>
    by_cases hreq : hasRequiredSchemas si = true
    · rw [← hfe]
      simp only [hl, hreq, if_true]
      unfold hasRequiredSchemas at hreq
      simp only [Bool.and_eq_true] at hreq
      exact ⟨hreq.1.1, hreq.1.2, hreq.2⟩
    · rw [← hfe]
      simp [hl, hreq, autoGenerateSchemas]

/-- Witness for claim C9: the single matched entry of a model without
discovered schemas carries all three synthesized roles. -/
theorem matchModels_entries_have_all_roles_witness :
    ("employee", demoModel, autoGenerateSchemas "employee" demoModel) ∈
      matchModelsWithSchemas [("employee", demoModel)] []
    ∧ ((autoGenerateSchemas "employee" demoModel).create.isSome = true
      ∧ (autoGenerateSchemas "employee" demoModel).update.isSome = true
      ∧ (autoGenerateSchemas "employee" demoModel).response.isSome = true) :=
  ⟨by decide,
   matchModels_entries_have_all_roles [("employee", demoModel)] []
     ("employee", demoModel, autoGenerateSchemas "employee" demoModel) (by decide)⟩

/-- Dict assignment makes the assigned key map to the assigned value. -/
theorem lookup_dictSet_self (d : List (String × ModelEntry)) (k : String) (v : ModelEntry) :
    List.lookup k (dictSet d k v) = some v := by
  induction d with
  | nil => simp [dictSet, List.lookup_cons]
  | cons p rest ih =>
    obtain ⟨k2, v2⟩ := p
    by_cases hk : (k2 == k) = true
    · simp [dictSet, hk, List.lookup_cons]
    · simp only [Bool.not_eq_true] at hk
      have hkk2 : (k == k2) = false := by
        rw [beq_eq_false_iff_ne]
        intro e
        rw [e, beq_self_eq_true] at hk
        cases hk
      simp [dictSet, hk, List.lookup_cons, hkk2, ih]

/-- Dict assignment leaves every other key unchanged. -/
theorem lookup_dictSet_ne (d : List (String × ModelEntry)) (k k2 : String)
    (v : ModelEntry) (h : k2 ≠ k) :
    List.lookup k2 (dictSet d k v) = List.lookup k2 d := by
  induction d with
  | nil => simp [dictSet, List.lookup_cons, beq_eq_false_iff_ne.mpr h]
  | cons p rest ih =>
    obtain ⟨k3, v3⟩ := p
    by_cases hk : (k3 == k) = true
    · have he : k3 = k := beq_iff_eq.mp hk
      subst he
      simp [dictSet, List.lookup_cons, beq_eq_false_iff_ne.mpr h]
    · simp only [Bool.not_eq_true] at hk
      by_cases hk23 : (k2 == k3) = true
      · simp [dictSet, hk, List.lookup_cons, hk23]
      · simp only [Bool.not_eq_true] at hk23
        simp [dictSet, hk, List.lookup_cons, hk23, ih]

/-- The member loop never touches keys other than the file key. -/
theorem discoverFold_other_keys (members : List PyClassDef)
    (models : List (String × ModelEntry)) (key k : String) (h : k ≠ key) :
    List.lookup k (members.foldl
      (fun acc c => if isTableMapped c then dictSet acc key (entryOf c) else acc) models)
      = List.lookup k models := by
  induction members generalizing models with
  | nil => rfl
  | cons c rest ih =>
    rw [List.foldl_cons]
    by_cases hc : isTableMapped c = true
    · simp only [hc, if_true]
      rw [ih (dictSet models key (entryOf c))]
      exact lookup_dictSet_ne models key k (entryOf c) h
    · simp only [hc, Bool.false_eq_true, if_false]
      exact ih models

/-- With no table-mapped member, the member loop registers nothing. -/
theorem discoverFold_no_qualifier (members : List PyClassDef)
    (models : List (String × ModelEntry)) (key : String)
    (h : members.filter isTableMapped = []) :
    members.foldl
      (fun acc c => if isTableMapped c then dictSet acc key (entryOf c) else acc) models
      = models := by
  induction members generalizing models with
  | nil => rfl
  | cons c rest ih =>
    by_cases hc : isTableMapped c = true
    · rw [List.filter_cons_of_pos hc] at h
      cases h
    · rw [List.filter_cons_of_neg (by simp [hc])] at h
      rw [List.foldl_cons]
      simp only [hc, Bool.false_eq_true, if_false]
      exact ih models h

/-- The member loop registers, under the file key, the entry of the LAST
table-mapped member. -/
theorem discoverFold_last_qualifier (members : List PyClassDef)
    (models : List (String × ModelEntry)) (key : String) (c : PyClassDef)
    (h : (members.filter isTableMapped).getLast? = some c) :
    List.lookup key (members.foldl
      (fun acc c => if isTableMapped c then dictSet acc key (entryOf c) else acc) models)
      = some (entryOf c) := by
  induction members generalizing models with
  | nil => simp [List.filter_nil] at h
  | cons d rest ih =>
    by_cases hd : isTableMapped d = true
    · rw [List.filter_cons_of_pos hd] at h
      rw [List.foldl_cons]
      simp only [hd, if_true]
      cases hrest : rest.filter isTableMapped with
      | nil =>
        rw [hrest] at h
        simp only [List.getLast?_singleton, Option.some.injEq] at h
        rw [discoverFold_no_qualifier rest (dictSet models key (entryOf d)) key hrest]
        rw [lookup_dictSet_self models key (entryOf d), h]
      | cons e es =>
        rw [hrest, List.getLast?_cons_cons] at h
        exact ih (dictSet models key (entryOf d)) (by rw [hrest]; exact h)
    · rw [List.filter_cons_of_neg (by simp [hd])] at h
      rw [List.foldl_cons]
      simp only [hd, Bool.false_eq_true, if_false]
      exact ih models h

/-- Claim C3: scanning one model file registers at most one entry, under the
key equal to the lowercased file stem: all other keys are untouched, a file
with no table-mapped class registers nothing, and when several classes
qualify the one found last during member enumeration is the sole
registrant. -/
theorem discovery_registers_last_qualifier (models : List (String × ModelEntry))
    (f : SourceFile) :
    (∀ k, k ≠ strLower f.stem →
      List.lookup k (discoverModelsInFile models f) = List.lookup k models)
    ∧ (f.members.filter isTableMapped = [] → discoverModelsInFile models f = models)
    ∧ (∀ c, (f.members.filter isTableMapped).getLast? = some c →
      List.lookup (strLower f.stem) (discoverModelsInFile models f) = some (entryOf c)) :=
  ⟨fun k hk => discoverFold_other_keys f.members models (strLower f.stem) k hk,
   fun h => discoverFold_no_qualifier f.members models (strLower f.stem) h,
   fun c h => discoverFold_last_qualifier f.members models (strLower f.stem) c h⟩

/-- The User class of models/user.py. -/
def userClass : PyClassDef := ⟨"User", true, "users", true⟩

/-- The UserProfile class of models/user.py. -/
def userProfileClass : PyClassDef := ⟨"UserProfile", true, "user_profiles", true⟩

/-- The Product class of models/user.py. -/
def productClass : PyClassDef := ⟨"Product", true, "products", true⟩

/-- The imported declarative Base seen by getmembers: DeclarativeMeta
instance but no tablename attribute, so it does not qualify. -/
def declarativeBaseClass : PyClassDef := ⟨"Base", false, "", true⟩

/-- models/user.py as the scanner sees it: members in getmembers order
(alphabetical), three of which are table-mapped. -/
def userFile : SourceFile :=
  ⟨"user", [declarativeBaseClass, productClass, userClass, userProfileClass]⟩

/-- Witness for claim C3: of Product, User and UserProfile in user.py, only
UserProfile (the last qualifying member) is registered, under the key user;
no entry appears under any other key. -/
theorem discovery_registers_last_qualifier_witness :
    (userFile.members.filter isTableMapped).getLast? = some userProfileClass
    ∧ List.lookup (strLower userFile.stem) (discoverModelsInFile [] userFile)
        = some (entryOf userProfileClass)
    ∧ "product" ≠ strLower userFile.stem
    ∧ List.lookup "product" (discoverModelsInFile [] userFile)
        = List.lookup "product" ([] : List (String × ModelEntry)) :=
  ⟨by decide,
   (discovery_registers_last_qualifier [] userFile).2.2 userProfileClass (by decide),
   by decide,
   (discovery_registers_last_qualifier [] userFile).1 "product" (by decide)⟩

/-- A model whose declared primary key is not named id. -/
def empModel : ModelClass := ⟨[⟨"emp_code", "VARCHAR(20)", false, true, none, none⟩]⟩

/-- Claim C10: the by-id handlers compare the attribute literally named id
against the path parameter.  The lookup coincides with fetch by primary key
exactly when the declared primary-key column is named id; for a model whose
primary key bears another name the two differ on an explicit store; and the
model argument never influences which row is found (read_item finds a row
for one model iff it does for any other, and the stored state update_item
leaves behind is identical across models). -/
theorem handlers_filter_on_literal_id (m m2 : ModelClass) (modelName : String)
    (db : List Row) (v : Value) (upd : List (String × Value)) :
    (primaryKeyColumnName m = some "id" →
      queryFilterById db v = queryFilterByPrimaryKey m db v)
    ∧ (∀ pk, primaryKeyColumnName m = some pk → pk ≠ "id" →
      queryFilterById [[("id", Value.vStr "target"), (pk, Value.vStr "other")]]
          (Value.vStr "target")
        ≠ queryFilterByPrimaryKey m
            [[("id", Value.vStr "target"), (pk, Value.vStr "other")]]
            (Value.vStr "target"))
    ∧ (read_item m modelName db v).isOk = (read_item m2 modelName db v).isOk
    ∧ (update_item m modelName db v upd).2 = (update_item m2 modelName db v upd).2 := by
  refine ⟨?_, ?_, ?_, ?_⟩
  · intro h
    simp [queryFilterByPrimaryKey, h, queryFilterById]
  · intro pk hpk hne
    have h1 : getattr [("id", Value.vStr "target"), (pk, Value.vStr "other")] "id"
        = Value.vStr "target" := by
      simp [getattr, List.lookup_cons]
    have h2 : getattr [("id", Value.vStr "target"), (pk, Value.vStr "other")] pk
        = Value.vStr "other" := by
      simp [getattr, List.lookup_cons, beq_eq_false_iff_ne.mpr hne]
    have h3 : (Value.vStr "other" == Value.vStr "target") = false := by decide
    simp [queryFilterByPrimaryKey, hpk, queryFilterById, List.find?, h1, h2, h3]
  · cases hq : queryFilterById db v <;> simp [read_item, hq, Except.isOk, Except.toBool]
  · cases hq : queryFilterById db v <;> simp [update_item, hq]

/-- Witness for claim C10: for the demo model (primary key id) the handler
lookup equals the primary-key fetch, while for a model whose primary key is
emp_code the two disagree on an explicit store. -/
theorem handlers_filter_on_literal_id_witness :
    primaryKeyColumnName demoModel = some "id"
    ∧ queryFilterById demoDb (Value.vStr "1")
        = queryFilterByPrimaryKey demoModel demoDb (Value.vStr "1")
    ∧ primaryKeyColumnName empModel = some "emp_code"
    ∧ "emp_code" ≠ "id"
    ∧ queryFilterById [[("id", Value.vStr "target"), ("emp_code", Value.vStr "other")]]
          (Value.vStr "target")
      ≠ queryFilterByPrimaryKey empModel
          [[("id", Value.vStr "target"), ("emp_code", Value.vStr "other")]]
          (Value.vStr "target") :=
  ⟨by decide,
   (handlers_filter_on_literal_id demoModel demoModel "user" demoDb
      (Value.vStr "1") []).1 (by decide),
   by decide, by decide,
   (handlers_filter_on_literal_id empModel empModel "employee" [] Value.vNone []).2.1
      "emp_code" (by decide) (by decide)⟩

end AutoCrud
